import Mathlib

/-!
Verification of the PocketbaseArduino client library
(`src/PocketbaseArduino.cpp`).

The library is a thin HTTP client: it builds endpoint URLs by string
concatenation and delegates the network I/O to external collaborators
(the ESP8266 `HTTPClient`, the `WiFi` status check, ArduinoJson's
`deserializeJson`, and the `PocketBase` transport object `pb`).  We embed
the request-building logic directly from the C++ source and model the
external collaborators as an explicit environment (`Env`): the WiFi link
state, the HTTP status code and body an HTTP GET would produce, the body
`pb.getRecord` would return, the numeric `code` field ArduinoJson would
extract from a body, and the success flag `pb.addRecord` would report.
Each operation returns the list of transport calls it performs together
with its `String` result, so that claims about which collaborator calls
happen (and in which order) are statable.
-/

namespace PocketbaseArduinoLib

/-- Modelled from the spec: the `PocketBase` object `pb` held by the root
client.  Its class declaration lives in `PocketbaseArduino.h`, which is not
part of the sources; the spec says the client "holds a base URL string;
immutable after construction", and the source calls `pb.getBaseUrl()`. -/
structure PocketBase where
  baseUrl : String
  deriving DecidableEq

/-- `pb.getBaseUrl()` as used throughout `PocketbaseArduino.cpp`. -/
def PocketBase.getBaseUrl (pb : PocketBase) : String :=
  pb.baseUrl

/-- The root client object.  `PocketbaseArduino::PocketbaseArduino(BASE_URL)
: pb(BASE_URL) {}` stores the base URL in the member `pb`. -/
structure PocketbaseArduino where
  pb : PocketBase
  deriving DecidableEq

/-- The constructor `PocketbaseArduino(const char *BASE_URL) : pb(BASE_URL)`. -/
def PocketbaseArduino.ofBaseUrl (BASE_URL : String) : PocketbaseArduino :=
  ⟨⟨BASE_URL⟩⟩

/-- A per-collection accessor: holds the client's `pb` object and the
collection name, exactly the two constructor arguments of
`PocketbaseCollection(pb, collectionName)`. -/
structure PocketbaseCollection where
  pb : PocketBase
  collectionName : String
  deriving DecidableEq

/-- `PocketbaseArduino::collection(collectionName)` returns
`PocketbaseCollection(pb, collectionName)`. -/
def PocketbaseArduino.collection (p : PocketbaseArduino) (collectionName : String) :
    PocketbaseCollection :=
  ⟨p.pb, collectionName⟩

/-- One call to an external transport collaborator, in program order. -/
inductive Event where
  /-- `http.begin(client, apiUrl.c_str())` -/
  | httpBegin (url : String)
  /-- `http.GET()` -/
  | httpGET
  /-- `http.end()` -/
  | httpEnd
  /-- `pb.getRecord(apiUrl)` -/
  | getRecord (url : String)
  /-- `pb.addRecord(collectionName, jsonData, id, expand, fields)` -/
  | addRecord (collectionName jsonData : String) (id expand fields : Option String)
  deriving DecidableEq

/-- The state of the external world during one call: the WiFi link, what the
HTTP transport and the `pb` collaborator would answer, and what ArduinoJson
would extract.  `jsonCode body` is the numeric top-level `code` field of
`body` (`none` when the field is absent, not numeric, or the body is not
parseable JSON). -/
structure Env where
  /-- `WiFi.status() == WL_CONNECTED` -/
  wifiConnected : Bool
  /-- the value `http.GET()` returns -/
  httpResponseCode : Int
  /-- the value `http.getString()` returns -/
  httpBody : String
  /-- the value `pb.getRecord(apiUrl)` returns -/
  getRecordBody : String
  /-- the numeric `code` field ArduinoJson finds in a body, if any -/
  jsonCode : String → Option Int
  /-- the value `pb.addRecord(...)` returns -/
  addRecordSuccess : Bool

/-- ArduinoJson's `jsonResponse["code"].as<int>()`: a missing or
non-numeric `code` field decodes to `0`. -/
def decodeCode (codeField : Option Int) : Int :=
  codeField.getD 0

/-- The domain errors the library throws as `PocketbaseArduinoException`. -/
inductive DomainError where
  /-- "Error: The requested resource wasn't found." (code 404 in `getOne`) -/
  | notFound
  /-- "Error: Only admins can access this action." (code 403 in `getOne`) -/
  | forbidden
  /-- "Error: Failed to create record." (`pb.addRecord` returned false) -/
  | createFailed
  deriving DecidableEq

/-- The URL built at the top of `PocketbaseCollection::getList`, line for
line: base records URL, then `?page=`, `&perPage=`, and each optional
parameter appended only when its pointer is non-null; `&skipTotal=1` only
when the flag is set. -/
def PocketbaseCollection.getListUrl (c : PocketbaseCollection)
    (page perPage : Nat) (sort filter expand fields : Option String)
    (skipTotal : Bool) : String :=
  let apiUrl := c.pb.getBaseUrl ++ "/api/collections/" ++ c.collectionName ++ "/records"
  let apiUrl := apiUrl ++ "?page=" ++ toString page
  let apiUrl := apiUrl ++ "&perPage=" ++ toString perPage
  let apiUrl :=
    match sort with
    | some s => apiUrl ++ "&sort=" ++ s
    | none => apiUrl
  let apiUrl :=
    match filter with
    | some f => apiUrl ++ "&filter=" ++ f
    | none => apiUrl
  let apiUrl :=
    match expand with
    | some e => apiUrl ++ "&expand=" ++ e
    | none => apiUrl
  let apiUrl :=
    match fields with
    | some f => apiUrl ++ "&fields=" ++ f
    | none => apiUrl
  if skipTotal then apiUrl ++ "&skipTotal=1" else apiUrl

/-- `PocketbaseCollection::getList`: after building the URL it checks
`WiFi.status() == WL_CONNECTED`; if connected it calls `http.begin` and
`http.GET`.  On `httpResponseCode > 0` it returns `http.getString()`
immediately (the `http.end()` on line 123 is not reached on this path);
otherwise it logs, calls `http.end()`, and falls through to `return ""`.
If the WiFi is down it only logs and returns `""`. -/
def PocketbaseCollection.getList (c : PocketbaseCollection) (env : Env)
    (page perPage : Nat) (sort filter expand fields : Option String)
    (skipTotal : Bool) : List Event × String :=
  let apiUrl := c.getListUrl page perPage sort filter expand fields skipTotal
  if env.wifiConnected then
    if env.httpResponseCode > 0 then
      ([Event.httpBegin apiUrl, Event.httpGET], env.httpBody)
    else
      ([Event.httpBegin apiUrl, Event.httpGET, Event.httpEnd], "")
  else
    ([], "")

/-- The URL built at the top of `PocketbaseCollection::getOne`: the record
URL, then `?expand=` (and nested `&fields=` when both are present), or
`?fields=` alone when `expand` is null. -/
def PocketbaseCollection.getOneUrl (c : PocketbaseCollection)
    (recordId : String) (expand fields : Option String) : String :=
  let apiUrl := c.pb.getBaseUrl ++ "/api/collections/" ++ c.collectionName
    ++ "/records/" ++ recordId
  match expand with
  | some e =>
    let apiUrl := apiUrl ++ "?expand=" ++ e
    match fields with
    | some f => apiUrl ++ "&fields=" ++ f
    | none => apiUrl
  | none =>
    match fields with
    | some f => apiUrl ++ "?fields=" ++ f
    | none => apiUrl

/-- The `try` block of `PocketbaseCollection::getOne`: call
`pb.getRecord(apiUrl)`, decode the body's `code` field with ArduinoJson,
throw `PocketbaseArduinoException` on 404 or 403, otherwise return the raw
body. -/
def PocketbaseCollection.getOneCore (c : PocketbaseCollection) (env : Env)
    (recordId : String) (expand fields : Option String) :
    List Event × Except DomainError String :=
  let apiUrl := c.getOneUrl recordId expand fields
  let result := env.getRecordBody
  let code := decodeCode (env.jsonCode result)
  ([Event.getRecord apiUrl],
    if code == 404 then Except.error DomainError.notFound
    else if code == 403 then Except.error DomainError.forbidden
    else Except.ok result)

/-- `PocketbaseCollection::getOne`: the `try` block, with every thrown
exception caught at the function's own `catch`, which logs and falls
through to `return ""`. -/
def PocketbaseCollection.getOne (c : PocketbaseCollection) (env : Env)
    (recordId : String) (expand fields : Option String) : List Event × String :=
  let r := c.getOneCore env recordId expand fields
  (r.fst,
    match r.snd with
    | Except.ok s => s
    | Except.error _ => "")

/-- The `try` block of `PocketbaseCollection::create`: call
`pb.addRecord(collectionName, jsonData, id, expand, fields)`, throw
`PocketbaseArduinoException` when it reports failure, otherwise return `""`. -/
def PocketbaseCollection.createCore (c : PocketbaseCollection) (env : Env)
    (jsonData : String) (id expand fields : Option String) :
    List Event × Except DomainError String :=
  ([Event.addRecord c.collectionName jsonData id expand fields],
    if env.addRecordSuccess then Except.ok ""
    else Except.error DomainError.createFailed)

/-- `PocketbaseCollection::create`: the `try` block, with the thrown
exception caught at the function's own `catch`, which logs and falls
through to `return ""`. -/
def PocketbaseCollection.create (c : PocketbaseCollection) (env : Env)
    (jsonData : String) (id expand fields : Option String) : List Event × String :=
  let r := c.createCore env jsonData id expand fields
  (r.fst,
    match r.snd with
    | Except.ok s => s
    | Except.error _ => "")

/-- Spec-side rendering of a query parameter list: first parameter after
`?`, the rest after `&`, each as `key=value`.  Written from the spec's
words for the refinement statement of the `getList` query string. -/
def renderParams : List (String × String) → String
  | [] => ""
  | p :: rest => "&" ++ p.1 ++ "=" ++ p.2 ++ renderParams rest

/-- Spec-side rendering of a whole query string (empty list renders as no
query string at all). -/
def renderQuery : List (String × String) → String
  | [] => ""
  | p :: rest => "?" ++ p.1 ++ "=" ++ p.2 ++ renderParams rest

/-- Spec-side description of the `getList` query parameters: `page` and
`perPage` always, then each optional parameter only when supplied, in the
fixed order sort, filter, expand, fields, skipTotal, with `skipTotal`
rendered as the literal `1` and present only when the flag is true.
Written from the spec's words for the refinement statement. -/
def getListQuerySpec (page perPage : Nat)
    (sort filter expand fields : Option String) (skipTotal : Bool) :
    List (String × String) :=
  [("page", toString page), ("perPage", toString perPage)]
    ++ (match sort with | some s => [("sort", s)] | none => [])
    ++ (match filter with | some f => [("filter", f)] | none => [])
    ++ (match expand with | some e => [("expand", e)] | none => [])
    ++ (match fields with | some f => [("fields", f)] | none => [])
    ++ (if skipTotal then [("skipTotal", "1")] else [])

end PocketbaseArduinoLib

namespace PocketbaseArduinoLib

/-- Merging the two adjacent literals around the `?` of the `getList` query
string, needed to align the code-side URL with the spec-side rendering. -/
theorem records_append_page (x : String) :
    "/records" ++ ("?page=" ++ x) = "/records?page=" ++ x := by
  rw [← String.append_assoc]; rfl

/-- C1: for every combination of the optional parameters of `getList`, the
constructed URL is the base records URL followed by exactly the query
parameters that were supplied — `page` and `perPage` always, each optional
one only when non-null — in the fixed order page, perPage, sort, filter,
expand, fields, skipTotal, with `skipTotal` present only when the flag is
true and rendered as the literal `1`. -/
theorem getList_query_exact (c : PocketbaseCollection) (page perPage : Nat)
    (sort filter expand fields : Option String) (skipTotal : Bool) :
    c.getListUrl page perPage sort filter expand fields skipTotal =
      c.pb.getBaseUrl ++ "/api/collections/" ++ c.collectionName ++ "/records"
        ++ renderQuery (getListQuerySpec page perPage sort filter expand fields skipTotal) := by
  rcases sort with _ | s <;> rcases filter with _ | f <;>
    rcases expand with _ | e <;> rcases fields with _ | fl <;> cases skipTotal <;>
    simp [PocketbaseCollection.getListUrl, getListQuerySpec, renderQuery, renderParams,
      String.append_assoc, records_append_page]

/-- C2: `getOne` builds its URL in exactly four shapes: with both optional
parameters the record URL is followed by `?expand=E&fields=F`; with only
`expand` by `?expand=E`; with only `fields` by `?fields=F`; with neither,
no query string is appended at all. -/
theorem getOne_url_cases (c : PocketbaseCollection) (recordId e f : String) :
    (c.getOneUrl recordId (some e) (some f) =
      c.pb.getBaseUrl ++ "/api/collections/" ++ c.collectionName ++ "/records/" ++ recordId
        ++ "?expand=" ++ e ++ "&fields=" ++ f) ∧
    (c.getOneUrl recordId (some e) none =
      c.pb.getBaseUrl ++ "/api/collections/" ++ c.collectionName ++ "/records/" ++ recordId
        ++ "?expand=" ++ e) ∧
    (c.getOneUrl recordId none (some f) =
      c.pb.getBaseUrl ++ "/api/collections/" ++ c.collectionName ++ "/records/" ++ recordId
        ++ "?fields=" ++ f) ∧
    (c.getOneUrl recordId none none =
      c.pb.getBaseUrl ++ "/api/collections/" ++ c.collectionName ++ "/records/" ++ recordId) := by
  refine ⟨?_, ?_, ?_, ?_⟩ <;>
    simp [PocketbaseCollection.getOneUrl, String.append_assoc]

/-- C3: when the WiFi link is down, `getList` performs no transport call at
all — neither `http.begin` nor `http.GET` appears in its event trace — and
returns the empty string, for every input. -/
theorem getList_no_wifi (c : PocketbaseCollection) (env : Env) (page perPage : Nat)
    (sort filter expand fields : Option String) (skipTotal : Bool)
    (h : env.wifiConnected = false) :
    c.getList env page perPage sort filter expand fields skipTotal = ([], "") := by
  simp [PocketbaseCollection.getList, h]

/-- C3 witness: a concrete disconnected environment. -/
theorem getList_no_wifi_witness :
    ((PocketbaseArduino.ofBaseUrl "http://pb.local").collection "posts").getList
      ⟨false, 200, "ok", "rec", fun _ => none, true⟩ 1 30 none none none none false = ([], "") :=
  getList_no_wifi _ _ 1 30 none none none none false rfl

/-- C4: when the transport reports success — positive HTTP status for
`getList`, and for `getOne` a body whose decoded `code` field is neither
404 nor 403 — the operation returns the transport's body verbatim. -/
theorem success_body_verbatim (c : PocketbaseCollection) (env : Env) (page perPage : Nat)
    (sort filter expand fields : Option String) (skipTotal : Bool) (recordId : String) :
    (env.wifiConnected = true → env.httpResponseCode > 0 →
      (c.getList env page perPage sort filter expand fields skipTotal).snd = env.httpBody) ∧
    (decodeCode (env.jsonCode env.getRecordBody) ≠ 404 →
      decodeCode (env.jsonCode env.getRecordBody) ≠ 403 →
      (c.getOne env recordId expand fields).snd = env.getRecordBody) := by
  constructor
  · intro hw hc
    simp [PocketbaseCollection.getList, hw, hc]
  · intro h4 h3
    simp [PocketbaseCollection.getOne, PocketbaseCollection.getOneCore, beq_iff_eq, h4, h3]

/-- C4 witness: a concrete connected environment with HTTP 200. -/
theorem success_body_verbatim_witness :
    (((PocketbaseArduino.ofBaseUrl "http://pb.local").collection "posts").getList
        ⟨true, 200, "ok", "rec", fun _ => none, true⟩ 1 30 none none none none false).snd = "ok" ∧
    (((PocketbaseArduino.ofBaseUrl "http://pb.local").collection "posts").getOne
        ⟨true, 200, "ok", "rec", fun _ => none, true⟩ "r1" none none).snd = "rec" :=
  ⟨(success_body_verbatim _ _ 1 30 none none none none false "r1").1 rfl (by decide),
   (success_body_verbatim _ _ 1 30 none none none none false "r1").2 (by decide) (by decide)⟩

/-- C5: a body whose `code` field decodes to 404 makes `getOne`'s try block
raise the not-found domain error, and 403 the forbidden one; in both cases
the error is caught at the function's own catch and the externally visible
result is the empty string. -/
theorem getOne_domain_errors (c : PocketbaseCollection) (env : Env) (recordId : String)
    (expand fields : Option String) :
    (env.jsonCode env.getRecordBody = some 404 →
      (c.getOneCore env recordId expand fields).snd = Except.error DomainError.notFound ∧
      (c.getOne env recordId expand fields).snd = "") ∧
    (env.jsonCode env.getRecordBody = some 403 →
      (c.getOneCore env recordId expand fields).snd = Except.error DomainError.forbidden ∧
      (c.getOne env recordId expand fields).snd = "") := by
  constructor <;> intro h <;>
    simp [PocketbaseCollection.getOne, PocketbaseCollection.getOneCore, decodeCode, h]

/-- C5 witness: concrete environments whose bodies decode to 404 and 403. -/
theorem getOne_domain_errors_witness :
    (((PocketbaseArduino.ofBaseUrl "http://pb.local").collection "posts").getOne
        ⟨true, 200, "ok", "err404", fun _ => some 404, true⟩ "r1" none none).snd = "" ∧
    (((PocketbaseArduino.ofBaseUrl "http://pb.local").collection "posts").getOne
        ⟨true, 200, "ok", "err403", fun _ => some 403, true⟩ "r1" none none).snd = "" :=
  ⟨((getOne_domain_errors _ _ "r1" none none).1 rfl).2,
   ((getOne_domain_errors _ _ "r1" none none).2 rfl).2⟩

/-- C6: `create` always delegates to the transport's `addRecord` call; on
reported failure its try block raises the create-failed domain error,
caught at the same boundary, and in every case — failure or success — the
externally visible result is the empty string. -/
theorem create_delegates_empty (c : PocketbaseCollection) (env : Env) (jsonData : String)
    (id expand fields : Option String) :
    (c.create env jsonData id expand fields).fst =
      [Event.addRecord c.collectionName jsonData id expand fields] ∧
    (c.create env jsonData id expand fields).snd = "" ∧
    (env.addRecordSuccess = false →
      (c.createCore env jsonData id expand fields).snd =
        Except.error DomainError.createFailed) := by
  cases h : env.addRecordSuccess <;>
    simp [PocketbaseCollection.create, PocketbaseCollection.createCore, h]

/-- C6 witness: a concrete environment where `addRecord` reports failure. -/
theorem create_delegates_empty_witness :
    (((PocketbaseArduino.ofBaseUrl "http://pb.local").collection "posts").createCore
        ⟨true, 200, "ok", "rec", fun _ => none, false⟩ "data" none none none).snd =
      Except.error DomainError.createFailed :=
  (create_delegates_empty _ _ "data" none none none).2.2 rfl

/-- C7: `collection "x"` and `collection "y"` on the same client yield
accessors that share only the client's immutable `pb` object, each bound to
its own name, and the URLs an accessor builds depend only on the base URL,
its own collection name and the call arguments — any client with the same
base URL yields the same URLs. -/
theorem collection_accessors_independent (p : PocketbaseArduino) (x y : String) :
    (p.collection x).pb = p.pb ∧ (p.collection y).pb = p.pb ∧
    (p.collection x).collectionName = x ∧ (p.collection y).collectionName = y ∧
    (∀ (q : PocketbaseArduino) (name : String), q.pb.baseUrl = p.pb.baseUrl →
      (∀ (page perPage : Nat) (sort filter expand fields : Option String) (skipTotal : Bool),
        (q.collection name).getListUrl page perPage sort filter expand fields skipTotal =
          (p.collection name).getListUrl page perPage sort filter expand fields skipTotal) ∧
      (∀ (recordId : String) (expand fields : Option String),
        (q.collection name).getOneUrl recordId expand fields =
          (p.collection name).getOneUrl recordId expand fields)) := by
  refine ⟨rfl, rfl, rfl, rfl, ?_⟩
  intro q name h
  constructor <;> intros <;>
    simp [PocketbaseCollection.getListUrl, PocketbaseCollection.getOneUrl,
      PocketbaseArduino.collection, PocketBase.getBaseUrl, h]

/-- C7 witness: instantiated at two concrete clients with the same base URL. -/
theorem collection_accessors_independent_witness :
    ((PocketbaseArduino.ofBaseUrl "http://pb.local").collection "y").getOneUrl "r1" (some "rel") none
      = ((PocketbaseArduino.ofBaseUrl "http://pb.local").collection "y").getOneUrl "r1" (some "rel") none :=
  ((collection_accessors_independent (PocketbaseArduino.ofBaseUrl "http://pb.local") "x" "y").2.2.2.2
    (PocketbaseArduino.ofBaseUrl "http://pb.local") "y" rfl).2 "r1" (some "rel") none

/-- C8: at a concrete connected environment where `http.GET` reports
success, `getList`'s event trace is `http.begin` followed by `http.GET`
with no `http.end`: the `return result` on the success path is executed
before the `http.end()` call, so the claim that the HTTP client resource
is released via `end` on every path fails on the success path. -/
theorem getList_success_skips_httpEnd :
    (((PocketbaseArduino.ofBaseUrl "http://pb.local").collection "posts").getList
        ⟨true, 200, "ok", "rec", fun _ => none, true⟩ 1 30 none none none none false).fst =
      [Event.httpBegin "http://pb.local/api/collections/posts/records?page=1&perPage=30",
        Event.httpGET] ∧
    Event.httpEnd ∉
      (((PocketbaseArduino.ofBaseUrl "http://pb.local").collection "posts").getList
        ⟨true, 200, "ok", "rec", fun _ => none, true⟩ 1 30 none none none none false).fst := by
  decide

/-- C9: `getOne` dispatches only on the exact decoded values 404 and 403:
a missing or non-numeric `code` field decodes to 0, and any body whose
field is absent or decodes to a value other than 404 and 403 is treated as
success and returned verbatim. -/
theorem getOne_probes_only_404_403 (c : PocketbaseCollection) (env : Env) (recordId : String)
    (expand fields : Option String) :
    decodeCode none = 0 ∧
    (env.jsonCode env.getRecordBody = none →
      (c.getOne env recordId expand fields).snd = env.getRecordBody) ∧
    (∀ n : Int, env.jsonCode env.getRecordBody = some n → n ≠ 404 → n ≠ 403 →
      (c.getOne env recordId expand fields).snd = env.getRecordBody) := by
  refine ⟨rfl, ?_, ?_⟩
  · intro h
    simp [PocketbaseCollection.getOne, PocketbaseCollection.getOneCore, decodeCode, h]
  · intro n h h4 h3
    simp [PocketbaseCollection.getOne, PocketbaseCollection.getOneCore, decodeCode, h,
      beq_iff_eq, h4, h3]

/-- C9 witness: a body with no parseable `code` field and one whose code is
500 are both returned verbatim. -/
theorem getOne_probes_only_404_403_witness :
    (((PocketbaseArduino.ofBaseUrl "http://pb.local").collection "posts").getOne
        ⟨true, 200, "ok", "notjson", fun _ => none, true⟩ "r1" none none).snd = "notjson" ∧
    (((PocketbaseArduino.ofBaseUrl "http://pb.local").collection "posts").getOne
        ⟨true, 200, "ok", "err500", fun _ => some 500, true⟩ "r1" none none).snd = "err500" :=
  ⟨(getOne_probes_only_404_403 _ _ "r1" none none).2.1 rfl,
   (getOne_probes_only_404_403 _ _ "r1" none none).2.2 500 rfl (by decide) (by decide)⟩

/-- C10: unlike `getList`, neither `getOne` nor `create` consults the WiFi
status: for every environment — connected or not — their event traces
consist of exactly the unconditional transport call (`pb.getRecord`,
`pb.addRecord`). -/
theorem getOne_create_unconditional_transport (c : PocketbaseCollection) (env : Env)
    (recordId jsonData : String) (id expand fields : Option String) :
    (c.getOne env recordId expand fields).fst =
      [Event.getRecord (c.getOneUrl recordId expand fields)] ∧
    (c.create env jsonData id expand fields).fst =
      [Event.addRecord c.collectionName jsonData id expand fields] := by
  exact ⟨rfl, rfl⟩

end PocketbaseArduinoLib
